import Mathlib

/-!
Shallow embedding of `alternator/expressions_types.hh` (ScyllaDB alternator,
parsed update-expression representation) and proofs of the specified
properties of its builder API.

C++ classes become Lean structures/inductives; the mutating setter methods
become functions from the old state (and arguments) to the new state.
C++ `std::variant` becomes a Lean inductive whose default-constructed state
holds the value-initialized first alternative.  Fallible operations
(`std::get` on a wrong alternative, and the duplicate-path validation) are
modelled with `Except`.
-/

namespace alternator
namespace parsed

/-- One dereference operator of a path: the source stores
`std::variant<std::string, unsigned>` — a string for a dot (`.xyz`),
an unsigned for an index (`[2]`). -/
inductive deref_op where
  | dot (name : String)
  | index (i : Nat)
deriving DecidableEq, Repr

/-- `class path`: a root attribute name plus a sequence of dereference
operators.  A default-constructed `path` has an empty root and no
operators. -/
structure path where
  root : String := ""
  operators : List deref_op := []
deriving DecidableEq, Repr

/-- `path::set_root` overwrites the root. -/
def path.set_root (p : path) (root : String) : path :=
  { p with root := root }

/-- `path::add_index` appends an index operator. -/
def path.add_index (p : path) (i : Nat) : path :=
  { p with operators := p.operators ++ [deref_op.index i] }

/-- `path::add_dot` appends a dot (field) operator. -/
def path.add_dot (p : path) (name : String) : path :=
  { p with operators := p.operators ++ [deref_op.dot name] }

/-- `path::has_operators`. -/
def path.has_operators (p : path) : Bool :=
  !p.operators.isEmpty

/-- Modelled from the spec: structural path equality used by the
duplicate-path collision check (spec §4.1).  The source's `path` class
declares no comparison operator and the body of `update_expression::add`,
the one consumer of this equality, is not part of the given source;
per the spec, two paths are equal when the roots are equal and the
operator sequences are equal position by position (indexes as integers,
field names as exact case-sensitive strings). -/
def path_eq (p q : path) : Bool :=
  decide (p.root = q.root) && decide (p.operators = q.operators)

/-- Errors of the builder contract.  In the source both situations are a
`std::get` on a wrong `std::variant` alternative (throwing
`std::bad_variant_access`); the spec names the failure `StateError` when
raised from `value::add_func_parameter` and `TypeMismatchError` when
raised from an `as_*` accessor. -/
inductive builder_error where
  | state_error
  | type_mismatch_error
deriving DecidableEq, Repr

/-- `class value`: `std::variant<std::string, path, function_call>` —
a value reference (`:val`), a path, or a function call over values. -/
inductive value where
  | valref (s : String)
  | pathval (p : path)
  | func (function_name : String) (parameters : List value)

/-- `value::function_call`: the function-call alternative's payload. -/
structure value.function_call where
  function_name : String
  parameters : List value

/-- A default-constructed `value`: the variant holds its value-initialized
first alternative, an empty `std::string`. -/
def value.init : value := value.valref ""

/-- `value::set_valref`. -/
def value.set_valref (_v : value) (s : String) : value := value.valref s

/-- `value::set_path`. -/
def value.set_path (_v : value) (p : path) : value := value.pathval p

/-- `value::set_func_name`: installs `function_call{name, {}}`. -/
def value.set_func_name (_v : value) (s : String) : value := value.func s []

/-- `value::add_func_parameter`: `std::get<function_call>(_value)` throws
unless the variant holds a function call; on success the parameter is
appended in call order. -/
def value.add_func_parameter : value → value → Except builder_error value
  | value.func n ps, v => Except.ok (value.func n (ps ++ [v]))
  | _, _ => Except.error builder_error.state_error

/-- `value::is_valref`. -/
def value.is_valref : value → Bool
  | value.valref _ => true
  | _ => false

/-- `value::is_function_call`. -/
def value.is_function_call : value → Bool
  | value.func _ _ => true
  | _ => false

/-- `value::is_path`. -/
def value.is_path : value → Bool
  | value.pathval _ => true
  | _ => false

/-- `value::as_valref` (`std::get<std::string>`). -/
def value.as_valref : value → Except builder_error String
  | value.valref s => Except.ok s
  | _ => Except.error builder_error.type_mismatch_error

/-- `value::as_function_call` (`std::get<function_call>`). -/
def value.as_function_call : value → Except builder_error value.function_call
  | value.func n ps => Except.ok ⟨n, ps⟩
  | _ => Except.error builder_error.type_mismatch_error

/-- `value::as_path` (`std::get<path>`). -/
def value.as_path : value → Except builder_error path
  | value.pathval p => Except.ok p
  | _ => Except.error builder_error.type_mismatch_error

/-- Appending a list of function parameters one `add_func_parameter`
call at a time, in order. -/
def value.add_params (v : value) (vs : List value) : Except builder_error value :=
  match vs with
  | [] => Except.ok v
  | w :: rest =>
    match v.add_func_parameter w with
    | Except.error e => Except.error e
    | Except.ok v' => v'.add_params rest

/-- `class set_rhs`: an operator tag (`'v'`, `'+'`, `'-'`) and two
operands.  The fields are public in the source. -/
structure set_rhs where
  op : Char
  v1 : value
  v2 : value

/-- `set_rhs::set_value`: sets the tag to `'v'` and operand 1; operand 2
is left alone. -/
def set_rhs.set_value (r : set_rhs) (u1 : value) : set_rhs :=
  { r with op := 'v', v1 := u1 }

/-- `set_rhs::set_plus`: sets the tag to `'+'` and operand 2; operand 1
is left alone. -/
def set_rhs.set_plus (r : set_rhs) (u2 : value) : set_rhs :=
  { r with op := '+', v2 := u2 }

/-- `set_rhs::set_minus`: sets the tag to `'-'` and operand 2; operand 1
is left alone. -/
def set_rhs.set_minus (r : set_rhs) (u2 : value) : set_rhs :=
  { r with op := '-', v2 := u2 }

/-- The payload variant of `update_expression::action`:
`std::variant<set, remove, add, del>`. -/
inductive action_payload where
  | set (rhs : set_rhs)
  | remove
  | add (valref : String)
  | del (valref : String)

/-- `update_expression::action`: a target path plus the payload
variant. -/
structure action where
  target : path
  act : action_payload

/-- `action::assign_set`: finalizes target and payload in one call. -/
def action.assign_set (_a : action) (p : path) (rhs : set_rhs) : action :=
  { target := p, act := action_payload.set rhs }

/-- `action::assign_remove`. -/
def action.assign_remove (_a : action) (p : path) : action :=
  { target := p, act := action_payload.remove }

/-- `action::assign_add`. -/
def action.assign_add (_a : action) (p : path) (v : String) : action :=
  { target := p, act := action_payload.add v }

/-- `action::assign_del`. -/
def action.assign_del (_a : action) (p : path) (v : String) : action :=
  { target := p, act := action_payload.del v }

/-- `action::is_set`. -/
def action.is_set (a : action) : Bool :=
  match a.act with
  | action_payload.set _ => true
  | _ => false

/-- `action::is_remove`. -/
def action.is_remove (a : action) : Bool :=
  match a.act with
  | action_payload.remove => true
  | _ => false

/-- `action::is_add`. -/
def action.is_add (a : action) : Bool :=
  match a.act with
  | action_payload.add _ => true
  | _ => false

/-- `action::is_del`. -/
def action.is_del (a : action) : Bool :=
  match a.act with
  | action_payload.del _ => true
  | _ => false

/-- The error raised by the duplicate-path validation; per the spec it
carries the offending path. -/
inductive update_error where
  | duplicate_path_error (p : path)
deriving DecidableEq, Repr

/-- `class update_expression`: the ordered action list plus the four
per-kind "seen" flags, all default-initialized. -/
structure update_expression where
  actions : List action := []
  seen_set : Bool := false
  seen_remove : Bool := false
  seen_add : Bool := false
  seen_del : Bool := false

/-- A default-constructed `update_expression`. -/
def update_expression.init : update_expression := {}

/-- Modelled from the spec: `update_expression::add` is declared at
`expressions_types.hh:190` but its body is not part of the given source.
Per spec §4.5 it fails with `DuplicatePathError` if any previously added
action targets a structurally-equal path (regardless of kinds); on
success it appends the action, preserving insertion order, and updates
the per-kind seen flag. -/
def update_expression.add (e : update_expression) (a : action) :
    Except update_error update_expression :=
  if e.actions.any (fun b => path_eq b.target a.target) then
    Except.error (update_error.duplicate_path_error a.target)
  else
    Except.ok { actions := e.actions ++ [a],
                seen_set := e.seen_set || a.is_set,
                seen_remove := e.seen_remove || a.is_remove,
                seen_add := e.seen_add || a.is_add,
                seen_del := e.seen_del || a.is_del }

/-- Merging a list of actions into an expression one `add` call at a
time, in order, stopping at the first failure. -/
def update_expression.add_all (e : update_expression) (as : List action) :
    Except update_error update_expression :=
  match as with
  | [] => Except.ok e
  | a :: rest =>
    match e.add a with
    | Except.error er => Except.error er
    | Except.ok e' => e'.add_all rest

/-- Modelled from the spec: `update_expression::append` is declared at
`expressions_types.hh:191` but its body is not part of the given source.
Per spec §4.5 it merges `other`'s actions into `self` one at a time
through the same `add` path-collision check (never a raw concatenation)
and merges the four seen flags by logical OR. -/
def update_expression.append (e other : update_expression) :
    Except update_error update_expression :=
  match e.add_all other.actions with
  | Except.error er => Except.error er
  | Except.ok merged =>
    Except.ok { merged with
                seen_set := merged.seen_set || other.seen_set,
                seen_remove := merged.seen_remove || other.seen_remove,
                seen_add := merged.seen_add || other.seen_add,
                seen_del := merged.seen_del || other.seen_del }

/-- `update_expression::empty`. -/
def update_expression.empty (e : update_expression) : Bool :=
  e.actions.isEmpty

/-! ### Basic lemmas -/

theorem path_eq_iff (p q : path) :
    path_eq p q = true ↔ (p.root = q.root ∧ p.operators = q.operators) := by
  simp [path_eq]

theorem path_eq_refl (p : path) : path_eq p p = true := by
  simp [path_eq]

/-- Inversion of a successful `add`: the action was appended at the back
and no previous action collided with its path. -/
theorem add_ok_inv {e : update_expression} {a : action} {e' : update_expression}
    (h : e.add a = Except.ok e') :
    e'.actions = e.actions ++ [a] ∧
      ∀ b ∈ e.actions, path_eq b.target a.target = false := by
  unfold update_expression.add at h
  by_cases hc : e.actions.any (fun b => path_eq b.target a.target) = true
  · simp [hc] at h
  · rw [if_neg hc] at h
    cases h
    refine ⟨rfl, ?_⟩
    intro b hb
    simp only [List.any_eq_true, not_exists, not_and] at hc
    push_neg at hc
    have := hc b hb
    simpa using this

/-- `add` succeeds when no previous action collides. -/
theorem add_ok_of_no_collision {e : update_expression} {a : action}
    (h : ∀ b ∈ e.actions, path_eq b.target a.target = false) :
    e.add a = Except.ok { actions := e.actions ++ [a],
                          seen_set := e.seen_set || a.is_set,
                          seen_remove := e.seen_remove || a.is_remove,
                          seen_add := e.seen_add || a.is_add,
                          seen_del := e.seen_del || a.is_del } := by
  unfold update_expression.add
  have hc : e.actions.any (fun b => path_eq b.target a.target) = false := by
    simp only [List.any_eq_false]
    intro b hb
    simp [h b hb]
  simp [hc]

/-- If all incoming actions have pairwise-distinct paths and none collides
with an existing action, `add_all` succeeds and concatenates. -/
theorem add_all_ok_of (as : List action) (e : update_expression)
    (hdisj : ∀ a ∈ as, ∀ b ∈ e.actions, path_eq b.target a.target = false)
    (hpair : as.Pairwise (fun a b => path_eq a.target b.target = false)) :
    ∃ e', e.add_all as = Except.ok e' ∧ e'.actions = e.actions ++ as := by
  induction as generalizing e with
  | nil => exact ⟨e, rfl, by simp [update_expression.add_all]⟩
  | cons a rest ih =>
    have ha := add_ok_of_no_collision (e := e) (a := a)
      (fun b hb => hdisj a (by simp) b hb)
    rw [List.pairwise_cons] at hpair
    obtain ⟨hhead, htail⟩ := hpair
    have hdisj' : ∀ x ∈ rest,
        ∀ b ∈ (update_expression.mk (e.actions ++ [a])
          (e.seen_set || a.is_set) (e.seen_remove || a.is_remove)
          (e.seen_add || a.is_add) (e.seen_del || a.is_del)).actions,
        path_eq b.target x.target = false := by
      intro x hx b hb
      rcases List.mem_append.mp hb with hb | hb
      · exact hdisj x (by simp [hx]) b hb
      · have : b = a := by simpa using hb
        subst this
        exact hhead x hx
    obtain ⟨e', he', hact⟩ := ih _ hdisj' htail
    refine ⟨e', ?_, by simpa using hact⟩
    unfold update_expression.add_all
    rw [ha]
    exact he'

/-- Inversion of a successful `add_all`: no merged-in action collides with
a pre-existing action. -/
theorem add_all_ok_disjoint (as : List action) (e : update_expression)
    {e' : update_expression} (h : e.add_all as = Except.ok e') :
    ∀ a ∈ as, ∀ b ∈ e.actions, path_eq b.target a.target = false := by
  induction as generalizing e with
  | nil => intro a ha; simp at ha
  | cons a rest ih =>
    unfold update_expression.add_all at h
    cases hadd : e.add a with
    | error er => rw [hadd] at h; cases h
    | ok e1 =>
      rw [hadd] at h
      obtain ⟨hact, hnone⟩ := add_ok_inv hadd
      intro x hx b hb
      rcases List.mem_cons.mp hx with hx | hx
      · subst hx; exact hnone b hb
      · exact ih e1 h x hx b (by rw [hact]; exact List.mem_append_left _ hb)

/-! ### C1..C5: duplicate-path validation and merge -/

/-- C1: two actions whose target paths are structurally equal (any
kinds): once the first has been added, the second `add` call fails with
`DuplicatePathError`, and the first action remains the sole entry for
that path in `actions()`. -/
theorem add_duplicate_path_fails (e : update_expression) (a1 a2 : action)
    (hpe : path_eq a1.target a2.target = true)
    (e1 : update_expression) (h : e.add a1 = Except.ok e1) :
    e1.add a2 = Except.error (update_error.duplicate_path_error a2.target) ∧
      e1.actions.filter (fun b => path_eq b.target a1.target) = [a1] := by
  obtain ⟨hact, hnone⟩ := add_ok_inv h
  constructor
  · unfold update_expression.add
    have hany : e1.actions.any (fun b => path_eq b.target a2.target) = true := by
      rw [List.any_eq_true]
      exact ⟨a1, by rw [hact]; simp, hpe⟩
    simp [hany]
  · rw [hact, List.filter_append]
    have h1 : e.actions.filter (fun b => path_eq b.target a1.target) = [] := by
      rw [List.filter_eq_nil_iff]
      intro b hb
      simp [hnone b hb]
    have h2 : [a1].filter (fun b => path_eq b.target a1.target) = [a1] := by
      simp [path_eq_refl]
    rw [h1, h2]
    rfl

/-- C2: for a sequence of actions with pairwise structurally-distinct
target paths, every `add` call on a fresh `update_expression` succeeds
and `actions()` afterwards holds exactly those actions in insertion
order. -/
theorem add_all_distinct_ok (as : List action)
    (h : as.Pairwise (fun a b => path_eq a.target b.target = false)) :
    ∃ e', update_expression.init.add_all as = Except.ok e' ∧
      e'.actions = as := by
  obtain ⟨e', he', hact⟩ := add_all_ok_of as update_expression.init
    (by intro a _ b hb; simp [update_expression.init] at hb) h
  exact ⟨e', he', by simpa [update_expression.init] using hact⟩

/-- C3: when `other` holds an action whose target path is structurally
equal to the path of some action already in `self`, `append` fails with
`DuplicatePathError` (so `self`, a value untouched by the failed call,
keeps all of its original actions). -/
theorem append_collision_fails (e other : update_expression)
    (h : ∃ b ∈ other.actions, ∃ a ∈ e.actions,
      path_eq a.target b.target = true) :
    ∃ p, e.append other =
      Except.error (update_error.duplicate_path_error p) := by
  cases hv : e.add_all other.actions with
  | error er =>
    cases er with
    | duplicate_path_error p =>
      exact ⟨p, by unfold update_expression.append; rw [hv]⟩
  | ok m =>
    exfalso
    obtain ⟨b, hb, a, ha, hpe⟩ := h
    have hfalse := add_all_ok_disjoint other.actions e hv b hb a ha
    simp [hfalse] at hpe

/-- C4: `append` of two expressions whose target-path sets are disjoint
(each built through `add`, so its own actions have pairwise-distinct
paths) succeeds, the merged action count is the sum of the two counts,
and all of `self`'s actions precede all of `other`'s. -/
theorem append_disjoint_ok (e other : update_expression)
    (hdisj : ∀ a ∈ e.actions, ∀ b ∈ other.actions,
      path_eq a.target b.target = false)
    (hpair : other.actions.Pairwise
      (fun a b => path_eq a.target b.target = false)) :
    ∃ e', e.append other = Except.ok e' ∧
      e'.actions = e.actions ++ other.actions ∧
      e'.actions.length = e.actions.length + other.actions.length := by
  obtain ⟨m, hm, hact⟩ := add_all_ok_of other.actions e
    (fun b hb a ha => hdisj a ha b hb) hpair
  refine ⟨{ m with
              seen_set := m.seen_set || other.seen_set
              seen_remove := m.seen_remove || other.seen_remove
              seen_add := m.seen_add || other.seen_add
              seen_del := m.seen_del || other.seen_del }, ?_, ?_, ?_⟩
  · unfold update_expression.append
    rw [hm]
  · simpa using hact
  · simp [hact]

/-- C5: path equality for collision purposes is structural: any two
paths with equal roots and equal ordered step sequences satisfy
`path_eq`, and adding two actions targeting two such independently
constructed paths to an expression treats them as the same path — the
second `add` fails with `DuplicatePathError`. -/
theorem path_structural_equality (p q : path)
    (hr : p.root = q.root) (ho : p.operators = q.operators) :
    path_eq p q = true ∧
    ∀ a1 a2 : action, a1.target = p → a2.target = q →
      ∃ e1, update_expression.init.add a1 = Except.ok e1 ∧
        e1.add a2 = Except.error (update_error.duplicate_path_error q) := by
  have hpq : path_eq p q = true := by simp [path_eq, hr, ho]
  refine ⟨hpq, ?_⟩
  intro a1 a2 h1 h2
  refine ⟨_, add_ok_of_no_collision
    (by intro b hb; simp [update_expression.init] at hb), ?_⟩
  simp [update_expression.add, update_expression.init, h1, h2, hpq]

/-! ### Concrete sample data for the witnesses -/

/-- A path with root `"a"` and no operators. -/
def path_a : path := { root := "a" }

/-- A path with root `"c"` and no operators. -/
def path_c : path := { root := "c" }

/-- A REMOVE action targeting `a`. -/
def act_remove_a : action := { target := path_a, act := action_payload.remove }

/-- A REMOVE action targeting `c`. -/
def act_remove_c : action := { target := path_c, act := action_payload.remove }

/-- An ADD action targeting `a` (a kind different from `act_remove_a`). -/
def act_add_a : action := { target := path_a, act := action_payload.add ":v" }

/-- The expression obtained by adding `act_remove_a` to a fresh one. -/
def expr_after_remove_a : update_expression :=
  { actions := [act_remove_a], seen_remove := true }

/-- An expression holding only `act_add_a`. -/
def expr_after_add_a : update_expression :=
  { actions := [act_add_a], seen_add := true }

/-- An expression holding only `act_remove_c`. -/
def expr_after_remove_c : update_expression :=
  { actions := [act_remove_c], seen_remove := true }

/-- The path `a.b[3]` built through the setter calls. -/
def built_path_ab3 : path :=
  (((path.mk "" []).set_root "a").add_dot "b").add_index 3

/-- The path `a.b[3]` built a second time, independently, through the
same setter calls. -/
def built_path_ab3_again : path :=
  (((path.mk "" []).set_root "a").add_dot "b").add_index 3

/-- C1 witness: after `act_remove_a` is added to a fresh expression,
adding `act_add_a` (same target path `a`, different kind) fails and the
REMOVE action stays the sole entry for that path. -/
theorem add_duplicate_path_fails_witness :
    expr_after_remove_a.add act_add_a =
      Except.error (update_error.duplicate_path_error act_add_a.target) ∧
    expr_after_remove_a.actions.filter
      (fun b => path_eq b.target act_remove_a.target) = [act_remove_a] :=
  add_duplicate_path_fails update_expression.init act_remove_a act_add_a
    rfl expr_after_remove_a rfl

/-- C2 witness: two actions on the distinct paths `a` and `c` are both
accepted, in order. -/
theorem add_all_distinct_ok_witness :
    ∃ e', update_expression.init.add_all [act_remove_a, act_remove_c] =
        Except.ok e' ∧
      e'.actions = [act_remove_a, act_remove_c] :=
  add_all_distinct_ok [act_remove_a, act_remove_c] (by decide)

/-- C3 witness: merging an expression holding an action on `a` into one
that already holds an action on `a` fails with the duplicate-path
error. -/
theorem append_collision_fails_witness :
    ∃ p, expr_after_remove_a.append expr_after_add_a =
      Except.error (update_error.duplicate_path_error p) :=
  append_collision_fails expr_after_remove_a expr_after_add_a
    ⟨act_add_a, by simp [expr_after_add_a],
      act_remove_a, by simp [expr_after_remove_a], rfl⟩

/-- C4 witness: merging expressions on the disjoint paths `a` and `c`
succeeds, `self`'s action first, with total count 1 + 1. -/
theorem append_disjoint_ok_witness :
    ∃ e', expr_after_remove_a.append expr_after_remove_c = Except.ok e' ∧
      e'.actions =
        expr_after_remove_a.actions ++ expr_after_remove_c.actions ∧
      e'.actions.length = expr_after_remove_a.actions.length +
        expr_after_remove_c.actions.length :=
  append_disjoint_ok expr_after_remove_a expr_after_remove_c
    (by decide) (by decide)

/-- C5 witness: two independently constructed paths with root `"a"` and
steps field `"b"` then index `3` collide: the second `add` targeting the
second copy fails with the duplicate-path error. -/
theorem path_structural_equality_witness :
    path_eq built_path_ab3 built_path_ab3_again = true ∧
    ∃ e1, update_expression.init.add
        { target := built_path_ab3, act := action_payload.remove } =
        Except.ok e1 ∧
      e1.add { target := built_path_ab3_again, act := action_payload.remove } =
        Except.error
          (update_error.duplicate_path_error built_path_ab3_again) := by
  have h := path_structural_equality built_path_ab3 built_path_ab3_again rfl rfl
  exact ⟨h.1, h.2 _ _ rfl rfl⟩

/-! ### C6..C10: properties fully determined by the given source -/

/-- C6: `set_rhs` two-phase fill: after `set_value(v1)` then
`set_plus(v2)` (resp. `set_minus(v2)`) the tag is `'+'` (resp. `'-'`),
operand 1 is still `v1` — the arithmetic setters neither modify nor
require re-supplying it — and operand 2 is `v2`; after `set_value(v1)`
alone the tag is `'v'` and operand 1 is `v1`. -/
theorem set_rhs_two_phase (r : set_rhs) (u1 u2 : value) :
    (((r.set_value u1).set_plus u2).op = '+' ∧
      ((r.set_value u1).set_plus u2).v1 = u1 ∧
      ((r.set_value u1).set_plus u2).v2 = u2) ∧
    (((r.set_value u1).set_minus u2).op = '-' ∧
      ((r.set_value u1).set_minus u2).v1 = u1 ∧
      ((r.set_value u1).set_minus u2).v2 = u2) ∧
    ((r.set_value u1).op = 'v' ∧ (r.set_value u1).v1 = u1) :=
  ⟨⟨rfl, rfl, rfl⟩, ⟨rfl, rfl, rfl⟩, rfl, rfl⟩

theorem add_params_func (args : List value) (s : String) (ps : List value) :
    value.add_params (value.func s ps) args =
      Except.ok (value.func s (ps ++ args)) := by
  induction args generalizing ps with
  | nil => simp [value.add_params]
  | cons w rest ih =>
    simp [value.add_params, value.add_func_parameter, ih (ps ++ [w])]

/-- C7: building a `value` by `set_func_name s` followed by appending a
list of parameters in order succeeds, yields a function call, and
`as_function_call` exposes name `s` and exactly those parameters in call
order (so their number equals the number of calls). -/
theorem func_name_then_params (v0 : value) (s : String) (args : List value) :
    ∃ w, value.add_params (v0.set_func_name s) args = Except.ok w ∧
      w.is_function_call = true ∧
      w.as_function_call = Except.ok ⟨s, args⟩ ∧
      ∃ fc, w.as_function_call = Except.ok fc ∧
        fc.parameters.length = args.length := by
  refine ⟨value.func s args, ?_, rfl, rfl, ⟨s, args⟩, rfl, rfl⟩
  have := add_params_func args s []
  simpa [value.set_func_name] using this

/-- C8: the three `value` discriminants are mutually exclusive and
exhaustive, and so are the four `action` discriminants (for every
finalized action — every representable action holds exactly one
payload variant). -/
theorem discriminants_exclusive (v : value) (a : action) :
    ((if v.is_valref then 1 else 0) + (if v.is_path then 1 else 0) +
      (if v.is_function_call then 1 else 0) = 1) ∧
    ((if a.is_set then 1 else 0) + (if a.is_remove then 1 else 0) +
      (if a.is_add then 1 else 0) + (if a.is_del then 1 else 0) = 1) := by
  constructor
  · cases v <;> simp [value.is_valref, value.is_path, value.is_function_call]
  · rcases a with ⟨t, pl⟩
    cases pl <;>
      simp [action.is_set, action.is_remove, action.is_add, action.is_del]

/-- C9: `add_func_parameter` on a `value` that is not in the
function-call variant (a fresh instance, or one set via `set_valref` or
`set_path`) fails — the spec's `StateError` — and produces no modified
value. -/
theorem add_func_parameter_state_error (v w : value)
    (h : v.is_function_call = false) :
    v.add_func_parameter w = Except.error builder_error.state_error := by
  cases v with
  | valref s => rfl
  | pathval p => rfl
  | func n ps => simp [value.is_function_call] at h

/-- C9 witness: a fresh (default-constructed) `value` is not a function
call, and appending a parameter to it fails with the state error. -/
theorem add_func_parameter_state_error_witness :
    value.init.is_function_call = false ∧
      value.init.add_func_parameter value.init =
        Except.error builder_error.state_error :=
  ⟨rfl, add_func_parameter_state_error value.init value.init rfl⟩

/-- C10: a default-constructed `value` already holds the value-reference
variant: `is_valref` is true, the other discriminants false, and
`as_valref` yields the empty string. -/
theorem init_value_is_valref :
    value.init.is_valref = true ∧ value.init.is_path = false ∧
      value.init.is_function_call = false ∧
      value.init.as_valref = Except.ok "" :=
  ⟨rfl, rfl, rfl, rfl⟩

end parsed
end alternator
